import Mathlib

/-!
# MySQL Workbench: SSH connection configuration and home screen sidebar

A shallow embedding of

* `backend/wbprivate/workbench/SSHCommon.h`: `ssh::wbPoll`, `ssh::SSHConnectionConfig`
  and its `getServer()`;
* `library/forms/home_screen.cpp`: `SidebarSection::shortcutFromPoint`,
  `SidebarSection::addEntry`, the `HomeScreen` constructor and `HomeScreen::addSection`.

Conventions: `int` arithmetic is carried out in `Int` (signed overflow is undefined
behaviour in C++, so on every defined execution the mathematical result is the machine
result); conversions to `size_t` reduce modulo `2 ^ 64`, conversions back to `int`
reduce into `[-2 ^ 31, 2 ^ 31)`. Pointers are `Option`s, `nullptr` being `none`.
A function that may throw returns the state reached together with the text of the
exception, when one was thrown.
-/

/-! ## Definitions: `SSHCommon.h` -/

namespace ssh

/-- One `struct pollfd` as handed to `poll(2)`. -/
structure pollfd where
  fd : Int
  events : Int
  revents : Int
  deriving DecidableEq

/-- The arguments of one call of the system's `poll` (or `WSAPoll`). -/
structure PollCall where
  fds : List pollfd
  nfds : Nat
  timeout : Int
  deriving DecidableEq

/-- The documented meaning of the third argument of `poll(2)` and `WSAPoll`:
a negative timeout blocks until a descriptor becomes ready. -/
def PollCall.waitsWithoutBound (c : PollCall) : Bool :=
  decide (c.timeout < 0)

/-- The call `ssh::wbPoll(data, size)` issues: `poll(data, (nfds_t)size, -1)`
(on Windows `WSAPoll(data, size, -1)`). -/
def wbPoll (data : List pollfd) (size : Nat) : PollCall :=
  { fds := data, nfds := size % 2 ^ 64, timeout := -1 }

/-- The decimal digit characters. -/
def digitChar : Nat → Char
  | 0 => '0'
  | 1 => '1'
  | 2 => '2'
  | 3 => '3'
  | 4 => '4'
  | 5 => '5'
  | 6 => '6'
  | 7 => '7'
  | 8 => '8'
  | _ => '9'

/-- The decimal digits of `n`, most significant first, written in front of `acc`. -/
def natDecAux : Nat → Nat → List Char → List Char
  | 0, _, acc => acc
  | fuel + 1, n, acc =>
    if n < 10 then digitChar n :: acc
    else natDecAux fuel (n / 10) (digitChar (n % 10) :: acc)

/-- The decimal numeral of a natural number (`"0"` for zero, no leading zeros). -/
def natDec (n : Nat) : List Char :=
  natDecAux (n + 1) n []

/-- The library function `std::to_string(int)`: what `%d` prints. -/
def to_string (v : Int) : String :=
  if v < 0 then String.mk ('-' :: natDec v.natAbs) else String.mk (natDec v.toNat)

/-- The class `ssh::SSHConnectionConfig`: seventeen public data members.
`int` and `ssize_t` are signed, `std::size_t` is unsigned. -/
structure SSHConnectionConfig where
  localhost : String
  localport : Int
  bufferSize : Int
  remoteSSHhost : String
  remoteSSHport : Nat
  remotehost : String
  remoteport : Int
  strictHostKeyCheck : Bool
  compressionLevel : Int
  fingerprint : String
  configFile : String
  knownHostsFile : String
  optionsDir : String
  connectTimeout : Nat
  readWriteTimeout : Nat
  commandTimeout : Nat
  commandRetryCount : Nat

namespace SSHConnectionConfig

/-- The member `getServer()`: `remotehost + ":" + std::to_string(remoteport)`. -/
def getServer (c : SSHConnectionConfig) : String :=
  c.remotehost ++ ":" ++ to_string c.remoteport

/-- Modelled from the spec: the body of `operator==(const SSHConnectionConfig &,
const SSHConnectionConfig &)`, which `SSHCommon.h` only declares as a friend. The
spec's data model says "Equality is structural (two configs equal iff all fields
equal)", so the comparison is the conjunction of the member comparisons. -/
def operator_eq (tun1 tun2 : SSHConnectionConfig) : Bool :=
  tun1.localhost == tun2.localhost && tun1.localport == tun2.localport &&
  tun1.bufferSize == tun2.bufferSize && tun1.remoteSSHhost == tun2.remoteSSHhost &&
  tun1.remoteSSHport == tun2.remoteSSHport && tun1.remotehost == tun2.remotehost &&
  tun1.remoteport == tun2.remoteport &&
  tun1.strictHostKeyCheck == tun2.strictHostKeyCheck &&
  tun1.compressionLevel == tun2.compressionLevel &&
  tun1.fingerprint == tun2.fingerprint && tun1.configFile == tun2.configFile &&
  tun1.knownHostsFile == tun2.knownHostsFile && tun1.optionsDir == tun2.optionsDir &&
  tun1.connectTimeout == tun2.connectTimeout &&
  tun1.readWriteTimeout == tun2.readWriteTimeout &&
  tun1.commandTimeout == tun2.commandTimeout &&
  tun1.commandRetryCount == tun2.commandRetryCount

/-- The data-model invariant of the spec: both remote ports and the connect
timeout are positive. -/
def portsAndTimeoutPositive (c : SSHConnectionConfig) : Prop :=
  0 < c.remoteport ∧ 0 < c.remoteSSHport ∧ 0 < c.connectTimeout

instance (c : SSHConnectionConfig) : Decidable c.portsAndTimeoutPositive := by
  unfold portsAndTimeoutPositive
  infer_instance

/-- The assignment `c.remoteport = v` for an `int` value `v`. -/
def assignRemoteport (c : SSHConnectionConfig) (v : Int) : SSHConnectionConfig :=
  { c with remoteport := v }

/-- The assignment `c.remoteSSHport = v` for a `std::size_t` value `v`. -/
def assignRemoteSSHport (c : SSHConnectionConfig) (v : Nat) : SSHConnectionConfig :=
  { c with remoteSSHport := v }

/-- The assignment `c.connectTimeout = v` for a `std::size_t` value `v`. -/
def assignConnectTimeout (c : SSHConnectionConfig) (v : Nat) : SSHConnectionConfig :=
  { c with connectTimeout := v }

end SSHConnectionConfig

/-- A config for a MySQL server behind a bastion, used in the examples. -/
def sampleConfig : SSHConnectionConfig :=
  { localhost := "127.0.0.1", localport := 0, bufferSize := 10240,
    remoteSSHhost := "bastion", remoteSSHport := 22,
    remotehost := "db.internal", remoteport := 3306,
    strictHostKeyCheck := true, compressionLevel := 0,
    fingerprint := "", configFile := "", knownHostsFile := "", optionsDir := "",
    connectTimeout := 10, readWriteTimeout := 5, commandTimeout := 1,
    commandRetryCount := 3 }

/-- Splitting a text at its last occurrence of `sep`: the part before and the part
after, or `none` when `sep` does not occur. -/
def splitAtLast (sep : Char) : List Char → Option (List Char × List Char)
  | [] => none
  | c :: cs =>
    match splitAtLast sep cs with
    | some (before, after) => some (c :: before, after)
    | none => if c = sep then some ([], cs) else none

/-- The value of a decimal digit character, `none` for any other character. -/
def digitValue (c : Char) : Option Nat :=
  if 48 ≤ c.toNat ∧ c.toNat ≤ 57 then some (c.toNat - 48) else none

/-- Reading digits from the left on top of the value `acc` read so far. -/
def parseDigits : List Char → Nat → Option Nat
  | [], acc => some acc
  | c :: cs, acc =>
    match digitValue c with
    | some d => parseDigits cs (10 * acc + d)
    | none => none

/-- Reading an unsigned decimal numeral: one digit at least, digits only. -/
def parseNat (cs : List Char) : Option Nat :=
  match cs with
  | [] => none
  | _ :: _ => parseDigits cs 0

/-- Reading a decimal numeral with an optional leading minus sign. -/
def parseInt (cs : List Char) : Option Int :=
  match cs with
  | [] => none
  | c :: rest =>
    if c = '-' then (parseNat rest).map (fun (n : Nat) => -Int.ofNat n)
    else (parseNat (c :: rest)).map (fun (n : Nat) => Int.ofNat n)

end ssh

/-! ## Definitions: `home_screen.cpp` -/

namespace mforms

/-- The layout constants `SIDEBAR_LEFT_PADDING`, `SIDEBAR_TOP_PADDING`,
`SIDEBAR_RIGHT_PADDING`, `SIDEBAR_ROW_HEIGHT` and `SIDEBAR_SPACING`. They are macros
of `mforms/home_screen.h`, a header that is not part of the sources at hand, so the
functions that use them take them as a parameter. They are `int` constants. -/
structure SidebarMetrics where
  SIDEBAR_LEFT_PADDING : Int
  SIDEBAR_TOP_PADDING : Int
  SIDEBAR_RIGHT_PADDING : Int
  SIDEBAR_ROW_HEIGHT : Int
  SIDEBAR_SPACING : Int
  deriving DecidableEq

/-- The conversion of an `int` value to `size_t`: reduction modulo `2 ^ 64`. -/
def toSizeT (v : Int) : Nat :=
  (v % 2 ^ 64).toNat

/-- The conversion `(int)row` of a `size_t` value: reduction into
`[-2 ^ 31, 2 ^ 31)`. -/
def toInt32 (n : Nat) : Int :=
  ((n : Int) + 2 ^ 31) % 2 ^ 32 - 2 ^ 31

/-- The member `SidebarSection::shortcutFromPoint(x, y)` of a section `width` wide
and `height` high (the values of `get_width()` and `get_height()`) that holds
`entryCount` entries. `%` and `/` on `int` truncate towards zero. The code divides
by `SIDEBAR_ROW_HEIGHT + SIDEBAR_SPACING`, which is undefined when that sum is zero;
the theorems below assume a positive row height and a non-negative spacing. -/
def shortcutFromPoint (m : SidebarMetrics) (width height : Int) (entryCount : Nat)
    (x y : Int) : Int :=
  if x < m.SIDEBAR_LEFT_PADDING ∨ y < m.SIDEBAR_TOP_PADDING ∨
      x > width - m.SIDEBAR_RIGHT_PADDING then
    -1
  else
    let y1 : Int := y - m.SIDEBAR_TOP_PADDING
    let point_in_row : Int := Int.tmod y1 (m.SIDEBAR_ROW_HEIGHT + m.SIDEBAR_SPACING)
    if point_in_row ≥ m.SIDEBAR_ROW_HEIGHT then
      -1
    else
      let row : Nat := toSizeT (Int.tdiv y1 (m.SIDEBAR_ROW_HEIGHT + m.SIDEBAR_SPACING))
      let height1 : Nat := toSizeT (height - m.SIDEBAR_TOP_PADDING)
      let row_bottom : Nat :=
        ((row * toSizeT (m.SIDEBAR_ROW_HEIGHT + m.SIDEBAR_SPACING)) % 2 ^ 64
          + toSizeT m.SIDEBAR_ROW_HEIGHT) % 2 ^ 64
      if row_bottom > height1 then
        -1
      else if row < entryCount then
        toInt32 row
      else
        -1

/-- A value of type `std::function<void()>`: empty, a callable handed in by the
caller, or the lambda `HomeScreen::addSection` builds, which captures
`isCallbackOnly` and the section. -/
inductive Callback where
  | empty
  | external (id : Nat)
  | sectionSwitch (isCallbackOnly : Bool) (sect : Nat)
  deriving DecidableEq

/-- What the code reads from a `HomeScreenSection` object: its address (the identity
of the object), `getTitle()`, `getIcon()`, whether its `callback` member is set,
`getIndicatorColor()` and `getContainer()`. -/
structure HomeScreenSection where
  addr : Nat
  title : String
  icon : String
  hasCallback : Bool
  indicatorColor : String
  container : Nat
  deriving DecidableEq

/-- The members of `SidebarEntry` that `addEntry` fills in. `owner` is always the
section that created the entry and `acc_bounds` is written by `repaint` only; both
are left out. `icon` is the surface `load_icon` returned. -/
structure SidebarEntry where
  callback : Callback
  canSelect : Bool
  title : String
  indicatorColor : String
  icon : Nat
  deriving DecidableEq

/-- The calls into the widget toolkit made by the functions modelled here, in the
order they are made. -/
inductive UICall where
  | scrollAddContainer (container : Nat)
  | addScroll (container : Nat)
  | showScroll (container : Nat) (flag : Bool)
  | addContainer (container : Nat)
  | showContainer (container : Nat) (flag : Bool)
  | showSectionParent (sect : Nat) (flag : Bool)
  | setLayoutDirty
  | addSidebar
  deriving DecidableEq

/-- The state of a `SidebarSection`: the vector `_entries` of (entry, section) pairs,
`_hotEntry` and `_activeEntry`. Entries are heap objects that are never removed or
moved before the destructor runs, so a pointer to an entry is the index of that entry
in `_entries`. `calls` collects the toolkit calls made so far. -/
structure SidebarSection where
  entries : List (SidebarEntry × Option HomeScreenSection)
  hotEntry : Option Nat
  activeEntry : Option Nat
  calls : List UICall
  deriving DecidableEq

/-- The state a function leaves behind and the text of the `std::runtime_error` it
threw, `none` when it returned normally. -/
structure Outcome (σ : Type) where
  state : σ
  thrown : Option String

namespace SidebarSection

/-- The constructor `SidebarSection::SidebarSection(owner)`. -/
def new : SidebarSection :=
  { entries := [], hotEntry := none, activeEntry := none, calls := [] }

/-- The member `SidebarSection::addEntry(title, icon_name, section, callback,
canSelect)`. `load_icon` stands for `mforms::Utilities::load_icon(icon_name, true)`,
which gives `NULL` (`none`) when the icon cannot be loaded. -/
def addEntry (load_icon : String → Option Nat) (s : SidebarSection) (title : String)
    (icon_name : String) (sect : Option HomeScreenSection) (callback : Callback)
    (canSelect : Bool) : Outcome SidebarSection :=
  let indicatorColor : String :=
    match sect with
    | some sec => sec.indicatorColor
    | none => "#ffffff"
  match load_icon icon_name with
  | none => { state := s, thrown := some ("Icon not found: " ++ icon_name) }
  | some icon =>
    let entry : SidebarEntry :=
      { callback := callback, canSelect := canSelect, title := title,
        indicatorColor := indicatorColor, icon := icon }
    let s1 : SidebarSection := { s with entries := s.entries ++ [(entry, sect)] }
    let s2 : SidebarSection :=
      match sect with
      | some sec =>
        if s1.activeEntry = none ∧ entry.canSelect = true then
          { s1 with activeEntry := some s.entries.length,
                    calls := s1.calls ++ [UICall.showSectionParent sec.addr true] }
        else s1
      | none => s1
    { state := { s2 with calls := s2.calls ++ [UICall.setLayoutDirty] }, thrown := none }

end SidebarSection

/-- The state of a `HomeScreen`: `_singleSection`, `_sidebarSection` (a pointer),
the vector `_sections`, and the toolkit calls made so far. -/
structure HomeScreen where
  singleSection : Bool
  sidebarSection : Option SidebarSection
  sections : List HomeScreenSection
  calls : List UICall
  deriving DecidableEq

namespace HomeScreen

/-- The constructor `HomeScreen::HomeScreen(singleSection)`. Naming and sizing the
sidebar, the colours and the registration as an observer are left out. -/
def new (singleSection : Bool) : HomeScreen :=
  if !singleSection then
    { singleSection := singleSection, sidebarSection := some SidebarSection.new,
      sections := [], calls := [UICall.addSidebar] }
  else
    { singleSection := singleSection, sidebarSection := none, sections := [], calls := [] }

/-- The member `HomeScreen::addSection(section)`. -/
def addSection (load_icon : String → Option Nat) (h : HomeScreen)
    (sect : Option HomeScreenSection) : Outcome HomeScreen :=
  match sect with
  | none => { state := h, thrown := some "Empty HomeScreenSection given" }
  | some sec =>
    if h.singleSection = true ∧ h.sections ≠ [] then
      { state := h,
        thrown := some "HomeScreen is in singleSection mode. Only one section allowed." }
    else
      let h1 : HomeScreen := { h with sections := h.sections ++ [sec] }
      match h1.sidebarSection with
      | some sidebar =>
        let h2 : HomeScreen :=
          { h1 with calls := h1.calls ++
              [UICall.scrollAddContainer sec.container, UICall.addScroll sec.container,
               UICall.showScroll sec.container false] }
        let isCallbackOnly : Bool := sec.hasCallback
        let r := sidebar.addEntry load_icon sec.title sec.icon (some sec)
          (Callback.sectionSwitch isCallbackOnly sec.addr) (!isCallbackOnly)
        { state := { h2 with sidebarSection := some r.state }, thrown := r.thrown }
      | none =>
        { state := { h1 with calls := h1.calls ++
            [UICall.addContainer sec.container, UICall.showContainer sec.container true] },
          thrown := none }

/-- The state after a sequence of `addSection` calls, one per element of `args`; a
call that throws leaves the state it reached and the next call goes on from it. -/
def addSections (load_icon : String → Option Nat) (h : HomeScreen)
    (args : List (Option HomeScreenSection)) : HomeScreen :=
  args.foldl (fun st arg => (addSection load_icon st arg).state) h

end HomeScreen

/-- The invariant of a `HomeScreen` built in single-section mode: the flag is set,
there is no sidebar, and the section list has at most one element. -/
def SingleSectionInv (h : HomeScreen) : Prop :=
  h.singleSection = true ∧ h.sidebarSection = none ∧ h.sections.length ≤ 1

/-- The text thrown by `addSection` in single-section mode when a section is there. -/
def singleSectionMessage : String :=
  "HomeScreen is in singleSection mode. Only one section allowed."

/-- Layout constants used in the examples. -/
def sampleMetrics : SidebarMetrics :=
  { SIDEBAR_LEFT_PADDING := 18, SIDEBAR_TOP_PADDING := 18, SIDEBAR_RIGHT_PADDING := 25,
    SIDEBAR_ROW_HEIGHT := 48, SIDEBAR_SPACING := 18 }

/-- A section used in the examples. -/
def sampleSection : HomeScreenSection :=
  { addr := 1, title := "Connections", icon := "sidebar_wb.png", hasCallback := false,
    indicatorColor := "#ff0000", container := 7 }

/-- An icon loader used in the examples: it knows one icon. -/
def sampleLoadIcon (name : String) : Option Nat :=
  if name = "sidebar_wb.png" then some 100 else none

end mforms

/-! ## Theorems: `SSHCommon.h` -/

namespace ssh

example : to_string 3306 = "3306" := by decide
example : to_string (-17) = "-17" := by decide
example : to_string 0 = "0" := by decide
example : sampleConfig.getServer = "db.internal:3306" := by decide
example : parseInt "-17".data = some (-17) := by decide
example : parseInt "-".data = none := by decide
example : parseInt "3x".data = none := by decide
example : splitAtLast ':' "a:b:3".data = some ("a:b".data, "3".data) := by decide

/-! ### Decimal numerals -/

theorem digitChar_ne_colon (d : Nat) : digitChar d ≠ ':' := by
  unfold digitChar
  split <;> decide

theorem digitChar_ne_minus (d : Nat) : digitChar d ≠ '-' := by
  unfold digitChar
  split <;> decide

theorem digitValue_digitChar (d : Nat) (h : d < 10) : digitValue (digitChar d) = some d := by
  interval_cases d <;> decide

theorem natDecAux_append (fuel n : Nat) (acc : List Char) :
    natDecAux fuel n acc = natDecAux fuel n [] ++ acc := by
  induction fuel generalizing n acc with
  | zero => simp [natDecAux]
  | succ f ih =>
    simp only [natDecAux]
    split
    · simp
    · rw [ih (n / 10) (digitChar (n % 10) :: acc), ih (n / 10) [digitChar (n % 10)]]
      simp

theorem natDecAux_ne_nil (fuel n : Nat) : natDecAux (fuel + 1) n [] ≠ [] := by
  simp only [natDecAux]
  split
  · simp
  · rw [natDecAux_append]
    simp

theorem natDecAux_mem (fuel n : Nat) (c : Char) (h : c ∈ natDecAux fuel n []) :
    ∃ d, c = digitChar d := by
  induction fuel generalizing n with
  | zero => simp [natDecAux] at h
  | succ f ih =>
    simp only [natDecAux] at h
    split at h
    · simp only [List.mem_singleton] at h
      exact ⟨n, h⟩
    · rw [natDecAux_append] at h
      simp only [List.mem_append, List.mem_singleton] at h
      rcases h with h | h
      · exact ih (n / 10) h
      · exact ⟨n % 10, h⟩

theorem parseDigits_append (xs ys : List Char) (acc : Nat) :
    parseDigits (xs ++ ys) acc = (parseDigits xs acc).bind (parseDigits ys) := by
  induction xs generalizing acc with
  | nil => simp [parseDigits]
  | cons x xs ih =>
    simp only [List.cons_append, parseDigits]
    cases digitValue x with
    | none => simp
    | some d => simpa using ih (10 * acc + d)

theorem parseDigits_natDecAux (fuel n : Nat) (h : n < fuel) :
    parseDigits (natDecAux fuel n []) 0 = some n := by
  induction fuel generalizing n with
  | zero => omega
  | succ f ih =>
    simp only [natDecAux]
    split
    · rename_i hlt
      simp [parseDigits, digitValue_digitChar n hlt]
    · rename_i hge
      rw [natDecAux_append, parseDigits_append, ih (n / 10) (by omega)]
      have hd : digitValue (digitChar (n % 10)) = some (n % 10) :=
        digitValue_digitChar _ (Nat.mod_lt _ (by decide))
      simp only [Option.some_bind, parseDigits, hd, Option.some.injEq]
      omega

theorem parseNat_natDec (n : Nat) : parseNat (natDec n) = some n := by
  have hne : natDec n ≠ [] := natDecAux_ne_nil n n
  have hp : parseDigits (natDec n) 0 = some n := parseDigits_natDecAux (n + 1) n (by omega)
  unfold parseNat
  split
  · rename_i heq
    exact absurd heq hne
  · exact hp

theorem parseInt_to_string (v : Int) : parseInt (to_string v).data = some v := by
  unfold to_string
  split
  · rename_i hneg
    simp only [parseInt, if_true, parseNat_natDec, Option.map_some', Option.some.injEq,
      Int.ofNat_eq_coe]
    omega
  · rename_i hpos
    have hne : natDec v.toNat ≠ [] := natDecAux_ne_nil _ _
    cases hcs : natDec v.toNat with
    | nil => exact absurd hcs hne
    | cons c rest =>
      have hc : c ≠ '-' := by
        have hmem : c ∈ natDec v.toNat := by simp [hcs]
        obtain ⟨d, hd⟩ := natDecAux_mem _ _ _ hmem
        rw [hd]
        exact digitChar_ne_minus d
      simp only [parseInt, if_neg hc]
      rw [← hcs, parseNat_natDec]
      simp only [Option.map_some', Option.some.injEq, Int.ofNat_eq_coe]
      omega

theorem colon_not_mem_to_string (v : Int) : ':' ∉ (to_string v).data := by
  have key : ∀ n, ':' ∉ natDec n := by
    intro n hmem
    obtain ⟨d, hd⟩ := natDecAux_mem _ _ _ hmem
    exact digitChar_ne_colon d hd.symm
  unfold to_string
  split
  · simp only [List.mem_cons, not_or]
    exact ⟨by decide, key _⟩
  · exact key _

/-! ### Splitting at the last separator -/

theorem splitAtLast_eq_none (sep : Char) (cs : List Char) (h : sep ∉ cs) :
    splitAtLast sep cs = none := by
  induction cs with
  | nil => rfl
  | cons c cs ih =>
    simp only [List.mem_cons, not_or] at h
    simp only [splitAtLast, ih h.2]
    simp [Ne.symm h.1]

theorem splitAtLast_append (sep : Char) (before after : List Char) (h : sep ∉ after) :
    splitAtLast sep (before ++ sep :: after) = some (before, after) := by
  induction before with
  | nil => simp [splitAtLast, splitAtLast_eq_none sep after h]
  | cons c cs ih => simp [splitAtLast, ih]

/-! ### The claims about `SSHCommon.h` -/

/-- C1: equality of connection configs is structural. For every two configs `a` and
`b`, `a == b` holds if and only if each of the seventeen members of `a` equals the
corresponding member of `b`, that is, if and only if `a` and `b` are the same value. -/
theorem operator_eq_iff_all_fields_equal (a b : SSHConnectionConfig) :
    (a.operator_eq b = true ↔
      (a.localhost = b.localhost ∧ a.localport = b.localport ∧
       a.bufferSize = b.bufferSize ∧ a.remoteSSHhost = b.remoteSSHhost ∧
       a.remoteSSHport = b.remoteSSHport ∧ a.remotehost = b.remotehost ∧
       a.remoteport = b.remoteport ∧ a.strictHostKeyCheck = b.strictHostKeyCheck ∧
       a.compressionLevel = b.compressionLevel ∧ a.fingerprint = b.fingerprint ∧
       a.configFile = b.configFile ∧ a.knownHostsFile = b.knownHostsFile ∧
       a.optionsDir = b.optionsDir ∧ a.connectTimeout = b.connectTimeout ∧
       a.readWriteTimeout = b.readWriteTimeout ∧
       a.commandTimeout = b.commandTimeout ∧
       a.commandRetryCount = b.commandRetryCount)) ∧
    (a.operator_eq b = true ↔ a = b) := by
  have hfields : a.operator_eq b = true ↔
      (a.localhost = b.localhost ∧ a.localport = b.localport ∧
       a.bufferSize = b.bufferSize ∧ a.remoteSSHhost = b.remoteSSHhost ∧
       a.remoteSSHport = b.remoteSSHport ∧ a.remotehost = b.remotehost ∧
       a.remoteport = b.remoteport ∧ a.strictHostKeyCheck = b.strictHostKeyCheck ∧
       a.compressionLevel = b.compressionLevel ∧ a.fingerprint = b.fingerprint ∧
       a.configFile = b.configFile ∧ a.knownHostsFile = b.knownHostsFile ∧
       a.optionsDir = b.optionsDir ∧ a.connectTimeout = b.connectTimeout ∧
       a.readWriteTimeout = b.readWriteTimeout ∧
       a.commandTimeout = b.commandTimeout ∧
       a.commandRetryCount = b.commandRetryCount) := by
    simp only [SSHConnectionConfig.operator_eq, Bool.and_eq_true, beq_iff_eq, and_assoc]
  refine ⟨hfields, ?_⟩
  rw [hfields]
  constructor
  · intro h
    cases a
    cases b
    simp only [SSHConnectionConfig.mk.injEq]
    exact h
  · intro h
    subst h
    simp

/-- C2, as stated, fails: for two descriptors and a config whose `readWriteTimeout`
is 5, the timeout `wbPoll` passes to `poll` is not 5, and the wait has no bound. -/
theorem wbPoll_ignores_readWriteTimeout :
    (wbPoll [⟨3, 1, 0⟩, ⟨4, 1, 0⟩] 2).timeout ≠ (sampleConfig.readWriteTimeout : Int) ∧
    (wbPoll [⟨3, 1, 0⟩, ⟨4, 1, 0⟩] 2).waitsWithoutBound = true := by
  decide

/-- C2, amended: `wbPoll` takes no connection config. For every descriptor set it
waits over exactly the descriptors given, with the fixed timeout `-1`, which blocks
until a descriptor is ready; that timeout differs from the `readWriteTimeout` of
every config. -/
theorem wbPoll_timeout_is_minus_one (data : List pollfd) (size : Nat)
    (cfg : SSHConnectionConfig) :
    (wbPoll data size).fds = data ∧
    (wbPoll data size).timeout = -1 ∧
    (wbPoll data size).waitsWithoutBound = true ∧
    (wbPoll data size).timeout ≠ (cfg.readWriteTimeout : Int) := by
  refine ⟨rfl, rfl, by simp [wbPoll, PollCall.waitsWithoutBound], ?_⟩
  simp only [wbPoll]
  omega

/-- C3, as stated, fails: assigning `0` to `remoteport`, `remoteSSHport` and
`connectTimeout` of a config gives a config that breaks the invariant. -/
theorem zero_ports_break_invariant :
    ¬ (((sampleConfig.assignRemoteport 0).assignRemoteSSHport 0).assignConnectTimeout
        0).portsAndTimeoutPositive := by
  decide

/-- C3, amended: the class enforces nothing. The config obtained by assigning
`remoteport = v`, `remoteSSHport = p` and `connectTimeout = t` holds exactly these
values, and it satisfies the invariant if and only if `v`, `p` and `t` are positive. -/
theorem invariant_iff_assigned_positive (c : SSHConnectionConfig) (v : Int) (p t : Nat) :
    (((c.assignRemoteport v).assignRemoteSSHport p).assignConnectTimeout t).remoteport = v ∧
    (((c.assignRemoteport v).assignRemoteSSHport p).assignConnectTimeout t).remoteSSHport
      = p ∧
    (((c.assignRemoteport v).assignRemoteSSHport p).assignConnectTimeout t).connectTimeout
      = t ∧
    ((((c.assignRemoteport v).assignRemoteSSHport p).assignConnectTimeout
        t).portsAndTimeoutPositive ↔ (0 < v ∧ 0 < p ∧ 0 < t)) := by
  refine ⟨rfl, rfl, rfl, ?_⟩
  simp [SSHConnectionConfig.portsAndTimeoutPositive, SSHConnectionConfig.assignRemoteport,
    SSHConnectionConfig.assignRemoteSSHport, SSHConnectionConfig.assignConnectTimeout]

example : sampleConfig.operator_eq sampleConfig = true := by decide
example : sampleConfig.operator_eq (sampleConfig.assignRemoteport 3307) = false := by decide
example : sampleConfig.operator_eq { sampleConfig with commandRetryCount := 4 } = false := by
  decide

example : splitAtLast ':' ({ sampleConfig with remotehost := "::1", remoteport := -7 } :
    SSHConnectionConfig).getServer.data = some ("::1".data, "-7".data) := by decide

/-- C4: `getServer()` renders the forwarding target and the rendering round-trips.
For every config the result is `remotehost`, then `':'`, then the decimal numeral of
`remoteport`; splitting it at its last `':'` gives `remotehost` before and that
numeral after, and the numeral parses to `remoteport`. Nothing is assumed about
`remotehost` (it may contain `':'`) or the sign of `remoteport`. -/
theorem getServer_roundtrip (c : SSHConnectionConfig) :
    c.getServer.data = c.remotehost.data ++ ':' :: (to_string c.remoteport).data ∧
    splitAtLast ':' c.getServer.data
      = some (c.remotehost.data, (to_string c.remoteport).data) ∧
    parseInt (to_string c.remoteport).data = some c.remoteport := by
  have hdata : c.getServer.data
      = c.remotehost.data ++ ':' :: (to_string c.remoteport).data := by
    simp [SSHConnectionConfig.getServer, String.data_append]
  refine ⟨hdata, ?_, parseInt_to_string _⟩
  rw [hdata]
  exact splitAtLast_append ':' _ _ (colon_not_mem_to_string _)

end ssh

/-! ## Theorems: `home_screen.cpp` -/

namespace mforms

example : shortcutFromPoint sampleMetrics 85 600 3 20 20 = 0 := by decide
example : shortcutFromPoint sampleMetrics 85 600 3 20 90 = 1 := by decide
example : shortcutFromPoint sampleMetrics 85 600 3 20 70 = -1 := by decide
example : shortcutFromPoint sampleMetrics 85 100 3 20 90 = -1 := by decide
example : shortcutFromPoint sampleMetrics 85 0 3 20 90 = 1 := by decide
example : ((HomeScreen.new true).addSections sampleLoadIcon
    [some sampleSection, some sampleSection]).sections = [sampleSection] := by decide

/-! ### Integer conversions -/

theorem toSizeT_of_range (v : Int) (h0 : 0 ≤ v) (h1 : v < 2 ^ 64) :
    ((toSizeT v : Nat) : Int) = v := by
  unfold toSizeT
  rw [Int.emod_eq_of_lt h0 h1]
  exact Int.toNat_of_nonneg h0

theorem toSizeT_of_neg (v : Int) (h0 : -(2 ^ 64) ≤ v) (h1 : v < 0) :
    ((toSizeT v : Nat) : Int) = v + 2 ^ 64 := by
  unfold toSizeT
  have hmod : v % 2 ^ 64 = v + 2 ^ 64 := by omega
  rw [hmod]
  exact Int.toNat_of_nonneg (by omega)

theorem toInt32_of_lt (n : Nat) (h : (n : Int) < 2 ^ 31) : toInt32 n = (n : Int) := by
  unfold toInt32
  omega

/-- What a non-negative result of `shortcutFromPoint` says about the tests the
function went through. -/
theorem shortcutFromPoint_nonneg (m : SidebarMetrics) (width height : Int)
    (entryCount : Nat) (x y : Int)
    (h : 0 ≤ shortcutFromPoint m width height entryCount x y) :
    m.SIDEBAR_LEFT_PADDING ≤ x ∧ m.SIDEBAR_TOP_PADDING ≤ y ∧
    x ≤ width - m.SIDEBAR_RIGHT_PADDING ∧
    Int.tmod (y - m.SIDEBAR_TOP_PADDING) (m.SIDEBAR_ROW_HEIGHT + m.SIDEBAR_SPACING)
      < m.SIDEBAR_ROW_HEIGHT ∧
    ((toSizeT (Int.tdiv (y - m.SIDEBAR_TOP_PADDING)
          (m.SIDEBAR_ROW_HEIGHT + m.SIDEBAR_SPACING))
        * toSizeT (m.SIDEBAR_ROW_HEIGHT + m.SIDEBAR_SPACING)) % 2 ^ 64
      + toSizeT m.SIDEBAR_ROW_HEIGHT) % 2 ^ 64
      ≤ toSizeT (height - m.SIDEBAR_TOP_PADDING) ∧
    toSizeT (Int.tdiv (y - m.SIDEBAR_TOP_PADDING)
      (m.SIDEBAR_ROW_HEIGHT + m.SIDEBAR_SPACING)) < entryCount ∧
    shortcutFromPoint m width height entryCount x y
      = toInt32 (toSizeT (Int.tdiv (y - m.SIDEBAR_TOP_PADDING)
          (m.SIDEBAR_ROW_HEIGHT + m.SIDEBAR_SPACING))) := by
  unfold shortcutFromPoint at h ⊢
  simp only [] at h ⊢
  split_ifs at h ⊢ with h1 h2 h3 h4
  · omega
  · omega
  · omega
  · refine ⟨by omega, by omega, by omega, by omega, by omega, h4, rfl⟩
  · omega

/-- The row and the offset inside the row of a point at or below the top padding. -/
theorem row_of_point (m : SidebarMetrics) (y : Int)
    (hrow : 0 < m.SIDEBAR_ROW_HEIGHT) (hsp : 0 ≤ m.SIDEBAR_SPACING)
    (htop : 0 ≤ m.SIDEBAR_TOP_PADDING) (hy : m.SIDEBAR_TOP_PADDING ≤ y)
    (hint : y < 2 ^ 31) :
    0 ≤ Int.tdiv (y - m.SIDEBAR_TOP_PADDING) (m.SIDEBAR_ROW_HEIGHT + m.SIDEBAR_SPACING) ∧
    Int.tdiv (y - m.SIDEBAR_TOP_PADDING) (m.SIDEBAR_ROW_HEIGHT + m.SIDEBAR_SPACING)
      < 2 ^ 31 ∧
    0 ≤ Int.tmod (y - m.SIDEBAR_TOP_PADDING) (m.SIDEBAR_ROW_HEIGHT + m.SIDEBAR_SPACING) ∧
    (m.SIDEBAR_ROW_HEIGHT + m.SIDEBAR_SPACING)
        * Int.tdiv (y - m.SIDEBAR_TOP_PADDING) (m.SIDEBAR_ROW_HEIGHT + m.SIDEBAR_SPACING)
      + Int.tmod (y - m.SIDEBAR_TOP_PADDING) (m.SIDEBAR_ROW_HEIGHT + m.SIDEBAR_SPACING)
      = y - m.SIDEBAR_TOP_PADDING := by
  have hy1 : 0 ≤ y - m.SIDEBAR_TOP_PADDING := by omega
  have hp : 0 ≤ m.SIDEBAR_ROW_HEIGHT + m.SIDEBAR_SPACING := by omega
  refine ⟨?_, ?_, Int.tmod_nonneg _ hy1, Int.tdiv_add_tmod _ _⟩
  · rw [Int.tdiv_eq_ediv hy1 hp]
    exact Int.ediv_nonneg hy1 hp
  · rw [Int.tdiv_eq_ediv hy1 hp]
    have := Int.ediv_le_self (m.SIDEBAR_ROW_HEIGHT + m.SIDEBAR_SPACING) hy1
    omega

/-- A point between the bottom of row `k` and the top of row `k + 1` lies at least
a row height into its stride. -/
theorem spacing_offset (m : SidebarMetrics) (y k : Int)
    (hrow : 0 < m.SIDEBAR_ROW_HEIGHT) (hsp : 0 ≤ m.SIDEBAR_SPACING) (hk : 0 ≤ k)
    (hlo : m.SIDEBAR_TOP_PADDING + k * (m.SIDEBAR_ROW_HEIGHT + m.SIDEBAR_SPACING)
      + m.SIDEBAR_ROW_HEIGHT ≤ y)
    (hhi : y < m.SIDEBAR_TOP_PADDING
      + (k + 1) * (m.SIDEBAR_ROW_HEIGHT + m.SIDEBAR_SPACING)) :
    m.SIDEBAR_ROW_HEIGHT
      ≤ Int.tmod (y - m.SIDEBAR_TOP_PADDING) (m.SIDEBAR_ROW_HEIGHT + m.SIDEBAR_SPACING) := by
  have hp : 0 < m.SIDEBAR_ROW_HEIGHT + m.SIDEBAR_SPACING := by omega
  have hkp : 0 ≤ k * (m.SIDEBAR_ROW_HEIGHT + m.SIDEBAR_SPACING) :=
    Int.mul_nonneg hk (le_of_lt hp)
  have hexp : (k + 1) * (m.SIDEBAR_ROW_HEIGHT + m.SIDEBAR_SPACING)
      = k * (m.SIDEBAR_ROW_HEIGHT + m.SIDEBAR_SPACING)
        + (m.SIDEBAR_ROW_HEIGHT + m.SIDEBAR_SPACING) := by ring
  have hy1 : 0 ≤ y - m.SIDEBAR_TOP_PADDING := by omega
  rw [Int.tmod_eq_emod hy1 (le_of_lt hp)]
  have hsplit : y - m.SIDEBAR_TOP_PADDING
      = (y - m.SIDEBAR_TOP_PADDING - k * (m.SIDEBAR_ROW_HEIGHT + m.SIDEBAR_SPACING))
        + k * (m.SIDEBAR_ROW_HEIGHT + m.SIDEBAR_SPACING) := by ring
  rw [hsplit, Int.add_mul_emod_self, Int.emod_eq_of_lt (by omega) (by omega)]
  omega

example : shortcutFromPoint sampleMetrics 85 600 3 20 (18 + 66 + 47) = 1 := by decide
example : shortcutFromPoint sampleMetrics 85 600 3 20 (18 + 66 + 48) = -1 := by decide
example : shortcutFromPoint sampleMetrics 85 600 3 60 20 = 0 := by decide
example : shortcutFromPoint sampleMetrics 85 600 3 61 20 = -1 := by decide

/-! ### The claims about `home_screen.cpp` -/

/-- C9: `shortcutFromPoint` reports a row only for points inside the rectangle of
that row. For a positive row height, a non-negative spacing and a non-negative top
padding, and `y` an `int`: if the result `r` is not negative then
`SIDEBAR_LEFT_PADDING <= x <= get_width() - SIDEBAR_RIGHT_PADDING` and `y` lies in
`[top, top + SIDEBAR_ROW_HEIGHT)` for `top = SIDEBAR_TOP_PADDING +
r * (SIDEBAR_ROW_HEIGHT + SIDEBAR_SPACING)`; and a point left or right of the
horizontal paddings, above the top padding, or in the spacing below a row `k` gives
`-1`. -/
theorem shortcutFromPoint_inside_row (m : SidebarMetrics) (width height : Int)
    (entryCount : Nat) (x y : Int)
    (hrow : 0 < m.SIDEBAR_ROW_HEIGHT) (hsp : 0 ≤ m.SIDEBAR_SPACING)
    (htop : 0 ≤ m.SIDEBAR_TOP_PADDING) (hint : y < 2 ^ 31) :
    (0 ≤ shortcutFromPoint m width height entryCount x y →
      m.SIDEBAR_LEFT_PADDING ≤ x ∧ x ≤ width - m.SIDEBAR_RIGHT_PADDING ∧
      m.SIDEBAR_TOP_PADDING + shortcutFromPoint m width height entryCount x y
        * (m.SIDEBAR_ROW_HEIGHT + m.SIDEBAR_SPACING) ≤ y ∧
      y < m.SIDEBAR_TOP_PADDING + shortcutFromPoint m width height entryCount x y
        * (m.SIDEBAR_ROW_HEIGHT + m.SIDEBAR_SPACING) + m.SIDEBAR_ROW_HEIGHT) ∧
    (x < m.SIDEBAR_LEFT_PADDING → shortcutFromPoint m width height entryCount x y = -1) ∧
    (x > width - m.SIDEBAR_RIGHT_PADDING →
      shortcutFromPoint m width height entryCount x y = -1) ∧
    (y < m.SIDEBAR_TOP_PADDING → shortcutFromPoint m width height entryCount x y = -1) ∧
    (∀ k : Int, 0 ≤ k →
      m.SIDEBAR_TOP_PADDING + k * (m.SIDEBAR_ROW_HEIGHT + m.SIDEBAR_SPACING)
        + m.SIDEBAR_ROW_HEIGHT ≤ y →
      y < m.SIDEBAR_TOP_PADDING + (k + 1) * (m.SIDEBAR_ROW_HEIGHT + m.SIDEBAR_SPACING) →
      shortcutFromPoint m width height entryCount x y = -1) := by
  refine ⟨?_, ?_, ?_, ?_, ?_⟩
  · intro h
    obtain ⟨hl, ht, hr, hmod, -, -, heq⟩ := shortcutFromPoint_nonneg m width height
      entryCount x y h
    obtain ⟨hq0, hq1, hm0, hsum⟩ := row_of_point m y hrow hsp htop ht hint
    have hrowval : shortcutFromPoint m width height entryCount x y
        = Int.tdiv (y - m.SIDEBAR_TOP_PADDING)
            (m.SIDEBAR_ROW_HEIGHT + m.SIDEBAR_SPACING) := by
      rw [heq, toInt32_of_lt _ (by rw [toSizeT_of_range _ hq0 (by omega)]; exact hq1)]
      exact toSizeT_of_range _ hq0 (by omega)
    rw [hrowval]
    refine ⟨hl, hr, ?_, ?_⟩
    · linarith [mul_comm (m.SIDEBAR_ROW_HEIGHT + m.SIDEBAR_SPACING)
        (Int.tdiv (y - m.SIDEBAR_TOP_PADDING) (m.SIDEBAR_ROW_HEIGHT + m.SIDEBAR_SPACING))]
    · linarith [mul_comm (m.SIDEBAR_ROW_HEIGHT + m.SIDEBAR_SPACING)
        (Int.tdiv (y - m.SIDEBAR_TOP_PADDING) (m.SIDEBAR_ROW_HEIGHT + m.SIDEBAR_SPACING))]
  · intro hx
    simp [shortcutFromPoint, hx]
  · intro hx
    have hx1 : width - m.SIDEBAR_RIGHT_PADDING < x := hx
    simp [shortcutFromPoint, hx1]
  · intro hy
    simp [shortcutFromPoint, hy]
  · intro k hk hlo hhi
    have hoff := spacing_offset m y k hrow hsp hk hlo hhi
    unfold shortcutFromPoint
    simp only []
    split_ifs <;> rfl

/-- C9, at a concrete input: with the sample constants, a section 85 wide and 600
high with three entries, the point (20, 90) is reported as row 1. -/
theorem shortcutFromPoint_inside_row_witness :
    (0 : Int) < sampleMetrics.SIDEBAR_ROW_HEIGHT ∧
    shortcutFromPoint sampleMetrics 85 600 3 20 90 = 1 ∧
    ((0 ≤ shortcutFromPoint sampleMetrics 85 600 3 20 90 →
      sampleMetrics.SIDEBAR_LEFT_PADDING ≤ 20 ∧
      20 ≤ 85 - sampleMetrics.SIDEBAR_RIGHT_PADDING ∧
      sampleMetrics.SIDEBAR_TOP_PADDING + shortcutFromPoint sampleMetrics 85 600 3 20 90
        * (sampleMetrics.SIDEBAR_ROW_HEIGHT + sampleMetrics.SIDEBAR_SPACING) ≤ 90 ∧
      90 < sampleMetrics.SIDEBAR_TOP_PADDING + shortcutFromPoint sampleMetrics 85 600 3 20 90
        * (sampleMetrics.SIDEBAR_ROW_HEIGHT + sampleMetrics.SIDEBAR_SPACING)
        + sampleMetrics.SIDEBAR_ROW_HEIGHT) ∧
    (20 < sampleMetrics.SIDEBAR_LEFT_PADDING →
      shortcutFromPoint sampleMetrics 85 600 3 20 90 = -1) ∧
    (20 > 85 - sampleMetrics.SIDEBAR_RIGHT_PADDING →
      shortcutFromPoint sampleMetrics 85 600 3 20 90 = -1) ∧
    (90 < sampleMetrics.SIDEBAR_TOP_PADDING →
      shortcutFromPoint sampleMetrics 85 600 3 20 90 = -1) ∧
    (∀ k : Int, 0 ≤ k →
      sampleMetrics.SIDEBAR_TOP_PADDING
        + k * (sampleMetrics.SIDEBAR_ROW_HEIGHT + sampleMetrics.SIDEBAR_SPACING)
        + sampleMetrics.SIDEBAR_ROW_HEIGHT ≤ 90 →
      90 < sampleMetrics.SIDEBAR_TOP_PADDING
        + (k + 1) * (sampleMetrics.SIDEBAR_ROW_HEIGHT + sampleMetrics.SIDEBAR_SPACING) →
      shortcutFromPoint sampleMetrics 85 600 3 20 90 = -1)) :=
  ⟨by decide, by decide,
    shortcutFromPoint_inside_row sampleMetrics 85 600 3 20 90 (by decide) (by decide)
      (by decide) (by decide)⟩

/-- The bottom-border test does what its comment says when the section is at least
as high as the top padding: with `int` constants whose stride
`SIDEBAR_ROW_HEIGHT + SIDEBAR_SPACING` is an `int` too, a reported row ends at or
above `get_height()`. -/
theorem shortcutFromPoint_row_within_height (m : SidebarMetrics) (width height : Int)
    (entryCount : Nat) (x y : Int)
    (hrow : 0 < m.SIDEBAR_ROW_HEIGHT) (hsp : 0 ≤ m.SIDEBAR_SPACING)
    (htop : 0 ≤ m.SIDEBAR_TOP_PADDING)
    (hstride : m.SIDEBAR_ROW_HEIGHT + m.SIDEBAR_SPACING < 2 ^ 31)
    (hint : y < 2 ^ 31) (hheight : m.SIDEBAR_TOP_PADDING ≤ height)
    (hhint : height < 2 ^ 31)
    (h : 0 ≤ shortcutFromPoint m width height entryCount x y) :
    m.SIDEBAR_TOP_PADDING + shortcutFromPoint m width height entryCount x y
      * (m.SIDEBAR_ROW_HEIGHT + m.SIDEBAR_SPACING) + m.SIDEBAR_ROW_HEIGHT ≤ height := by
  obtain ⟨-, ht, -, -, hbottom, -, heq⟩ := shortcutFromPoint_nonneg m width height
    entryCount x y h
  obtain ⟨hq0, hq1, -, -⟩ := row_of_point m y hrow hsp htop ht hint
  have hq := toSizeT_of_range _ hq0 (lt_trans hq1 (by norm_num))
  have hP := toSizeT_of_range (m.SIDEBAR_ROW_HEIGHT + m.SIDEBAR_SPACING) (by omega)
    (by omega)
  have hR := toSizeT_of_range m.SIDEBAR_ROW_HEIGHT (by omega) (by omega)
  have hH := toSizeT_of_range (height - m.SIDEBAR_TOP_PADDING) (by omega) (by omega)
  have hrowval : shortcutFromPoint m width height entryCount x y
      = Int.tdiv (y - m.SIDEBAR_TOP_PADDING)
          (m.SIDEBAR_ROW_HEIGHT + m.SIDEBAR_SPACING) := by
    rw [heq, toInt32_of_lt _ (by rw [hq]; exact hq1)]
    exact hq
  rw [hrowval]
  have hprod : Int.tdiv (y - m.SIDEBAR_TOP_PADDING)
        (m.SIDEBAR_ROW_HEIGHT + m.SIDEBAR_SPACING)
      * (m.SIDEBAR_ROW_HEIGHT + m.SIDEBAR_SPACING) < 2 ^ 31 * 2 ^ 31 :=
    Int.mul_lt_mul hq1 (le_of_lt hstride) (by omega) (by norm_num)
  have hprod0 : 0 ≤ Int.tdiv (y - m.SIDEBAR_TOP_PADDING)
        (m.SIDEBAR_ROW_HEIGHT + m.SIDEBAR_SPACING)
      * (m.SIDEBAR_ROW_HEIGHT + m.SIDEBAR_SPACING) :=
    Int.mul_nonneg hq0 (by omega)
  have hcast : ((((toSizeT (Int.tdiv (y - m.SIDEBAR_TOP_PADDING)
          (m.SIDEBAR_ROW_HEIGHT + m.SIDEBAR_SPACING))
        * toSizeT (m.SIDEBAR_ROW_HEIGHT + m.SIDEBAR_SPACING)) % 2 ^ 64
      + toSizeT m.SIDEBAR_ROW_HEIGHT) % 2 ^ 64 : Nat) : Int)
      ≤ ((toSizeT (height - m.SIDEBAR_TOP_PADDING) : Nat) : Int) := by
    exact_mod_cast hbottom
  push_cast at hcast
  rw [hq, hP, hR, hH] at hcast
  rw [Int.emod_eq_of_lt hprod0 (by omega)] at hcast
  rw [Int.emod_eq_of_lt (by omega) (by omega)] at hcast
  omega

/-- That theorem at a concrete input: a section 600 high, the point (20, 90). -/
theorem shortcutFromPoint_row_within_height_example :
    sampleMetrics.SIDEBAR_TOP_PADDING + shortcutFromPoint sampleMetrics 85 600 3 20 90
      * (sampleMetrics.SIDEBAR_ROW_HEIGHT + sampleMetrics.SIDEBAR_SPACING)
      + sampleMetrics.SIDEBAR_ROW_HEIGHT ≤ 600 :=
  shortcutFromPoint_row_within_height sampleMetrics 85 600 3 20 90 (by decide) (by decide)
    (by decide) (by decide) (by decide) (by decide) (by decide) (by decide)

/-- C8 fails on the code: in a section lower than the top padding the subtraction
`get_height() - SIDEBAR_TOP_PADDING` is negative and becomes a huge `size_t`, so the
bottom-border test lets every row pass. For `int` constants with a positive row
height, a non-negative spacing and non-negative paddings, a section with
`0 <= get_height() < SIDEBAR_TOP_PADDING` that is wide enough and holds an entry
reports row 0 at the point `(SIDEBAR_LEFT_PADDING, SIDEBAR_TOP_PADDING)`, although
row 0 ends below `get_height()`. -/
theorem shortcutFromPoint_low_section_hits_row (m : SidebarMetrics) (width height : Int)
    (entryCount : Nat)
    (hrow : 0 < m.SIDEBAR_ROW_HEIGHT) (hrowint : m.SIDEBAR_ROW_HEIGHT < 2 ^ 31)
    (_hsp : 0 ≤ m.SIDEBAR_SPACING) (htop : 0 ≤ m.SIDEBAR_TOP_PADDING)
    (htopint : m.SIDEBAR_TOP_PADDING < 2 ^ 31)
    (hwidth : m.SIDEBAR_LEFT_PADDING + m.SIDEBAR_RIGHT_PADDING ≤ width)
    (hheight0 : 0 ≤ height) (hheight : height < m.SIDEBAR_TOP_PADDING)
    (hentries : 0 < entryCount) :
    shortcutFromPoint m width height entryCount m.SIDEBAR_LEFT_PADDING
      m.SIDEBAR_TOP_PADDING = 0 ∧
    ¬ (m.SIDEBAR_TOP_PADDING + 0 * (m.SIDEBAR_ROW_HEIGHT + m.SIDEBAR_SPACING)
      + m.SIDEBAR_ROW_HEIGHT ≤ height) := by
  refine ⟨?_, by omega⟩
  have hR := toSizeT_of_range m.SIDEBAR_ROW_HEIGHT (by omega) (by omega)
  have hH := toSizeT_of_neg (height - m.SIDEBAR_TOP_PADDING) (by omega) (by omega)
  have hzero : toSizeT 0 = 0 := by decide
  have hRlt : toSizeT m.SIDEBAR_ROW_HEIGHT < 2 ^ 64 := by omega
  have hcmp : ¬ (toSizeT m.SIDEBAR_ROW_HEIGHT
      > toSizeT (height - m.SIDEBAR_TOP_PADDING)) := by omega
  unfold shortcutFromPoint
  simp only [sub_self, Int.zero_tmod, Int.zero_tdiv, hzero, Nat.zero_mul, Nat.zero_mod,
    Nat.zero_add, Nat.mod_eq_of_lt hRlt]
  rw [if_neg (by omega), if_neg (by omega), if_neg hcmp, if_pos hentries]
  decide

/-- C8 fails on the code, at a concrete input: with the sample constants, a
section 85 wide and 0 high with one entry reports row 0 at the point (18, 18). -/
theorem shortcutFromPoint_low_section_hits_row_witness :
    shortcutFromPoint sampleMetrics 85 0 1 18 18 = 0 ∧
    ¬ (sampleMetrics.SIDEBAR_TOP_PADDING
      + 0 * (sampleMetrics.SIDEBAR_ROW_HEIGHT + sampleMetrics.SIDEBAR_SPACING)
      + sampleMetrics.SIDEBAR_ROW_HEIGHT ≤ 0) :=
  shortcutFromPoint_low_section_hits_row sampleMetrics 85 0 1 (by decide) (by decide)
    (by decide) (by decide) (by decide) (by decide) (by decide) (by decide) (by decide)

example : (SidebarSection.new.addEntry sampleLoadIcon "Docs" "missing.png" none
    (Callback.external 4) true).thrown = some "Icon not found: missing.png" := by decide
example : (SidebarSection.new.addEntry sampleLoadIcon "Docs" "sidebar_wb.png"
    (some sampleSection) (Callback.external 4) true).state.activeEntry = some 0 := by decide

/-- C7: `addEntry` fails exactly when the icon cannot be loaded, and then changes
nothing. It throws `runtime_error("Icon not found: " + icon_name)` if and only if
`load_icon` gives no icon, and it throws nothing else; when it throws, the section
(its entry list and its active entry among the rest) is as before; otherwise the
entry list is the old list followed by one entry that carries the given title,
callback and `canSelect`, paired with the given section. -/
theorem addEntry_throws_iff_icon_missing (load_icon : String → Option Nat)
    (s : SidebarSection) (title icon_name : String) (sect : Option HomeScreenSection)
    (callback : Callback) (canSelect : Bool) :
    ((s.addEntry load_icon title icon_name sect callback canSelect).thrown
        = some ("Icon not found: " ++ icon_name) ↔ load_icon icon_name = none) ∧
    ((s.addEntry load_icon title icon_name sect callback canSelect).thrown = none
        ↔ load_icon icon_name ≠ none) ∧
    (load_icon icon_name = none →
      (s.addEntry load_icon title icon_name sect callback canSelect).state = s ∧
      (s.addEntry load_icon title icon_name sect callback canSelect).state.entries
        = s.entries ∧
      (s.addEntry load_icon title icon_name sect callback canSelect).state.activeEntry
        = s.activeEntry) ∧
    (load_icon icon_name ≠ none →
      ∃ entry : SidebarEntry,
        (s.addEntry load_icon title icon_name sect callback canSelect).state.entries
          = s.entries ++ [(entry, sect)] ∧
        entry.title = title ∧ entry.callback = callback ∧ entry.canSelect = canSelect) := by
  cases hicon : load_icon icon_name with
  | none => simp [SidebarSection.addEntry, hicon]
  | some icon =>
    refine ⟨by simp [SidebarSection.addEntry, hicon], by simp [SidebarSection.addEntry, hicon],
      by simp, ?_⟩
    intro _
    refine ⟨{ callback := callback, canSelect := canSelect, title := title,
              indicatorColor := match sect with
                | some sec => sec.indicatorColor
                | none => "#ffffff",
              icon := icon }, ?_, rfl, rfl, rfl⟩
    cases sect with
    | none => simp [SidebarSection.addEntry, hicon]
    | some sec =>
      simp only [SidebarSection.addEntry, hicon]
      split_ifs <;> rfl

/-! ### Single-section mode -/

theorem singleSectionInv_new : SingleSectionInv (HomeScreen.new true) := by
  simp [SingleSectionInv, HomeScreen.new]

theorem singleSectionInv_addSection (load_icon : String → Option Nat) (h : HomeScreen)
    (arg : Option HomeScreenSection) (hinv : SingleSectionInv h) :
    SingleSectionInv (h.addSection load_icon arg).state := by
  obtain ⟨hs, hb, hl⟩ := hinv
  cases arg with
  | none => exact ⟨hs, hb, hl⟩
  | some sec =>
    by_cases hne : h.sections = []
    · simp [HomeScreen.addSection, SingleSectionInv, hs, hb, hne]
    · simp only [HomeScreen.addSection, hs, hne, ne_eq, not_false_eq_true, and_self,
        if_true]
      exact ⟨hs, hb, hl⟩

theorem singleSectionInv_addSections (load_icon : String → Option Nat)
    (args : List (Option HomeScreenSection)) (h : HomeScreen) (hinv : SingleSectionInv h) :
    SingleSectionInv (h.addSections load_icon args) := by
  induction args generalizing h with
  | nil => exact hinv
  | cons a rest ih =>
    exact ih (h.addSection load_icon a).state
      (singleSectionInv_addSection load_icon h a hinv)

/-- C6, as stated, fails: in single-section mode with a section present, the call
`addSection(nullptr)` throws `"Empty HomeScreenSection given"`, which is not the
single-section message. -/
theorem addSection_null_throws_other_message :
    ((HomeScreen.new true).addSections sampleLoadIcon [some sampleSection]).sections
      = [sampleSection] ∧
    (((HomeScreen.new true).addSections sampleLoadIcon [some sampleSection]).addSection
      sampleLoadIcon none).thrown = some "Empty HomeScreenSection given" ∧
    (((HomeScreen.new true).addSections sampleLoadIcon [some sampleSection]).addSection
      sampleLoadIcon none).thrown ≠ some singleSectionMessage := by
  decide

/-- C6, amended: a `HomeScreen` in single-section mode never holds more than one
section. After every sequence of `addSection` calls on `HomeScreen(true)` the
section list has at most one element; and a further call made while a section is
present leaves the whole state unchanged and throws: the single-section message
when it is given a section, `"Empty HomeScreenSection given"` when it is given
`nullptr`. -/
theorem singleSection_at_most_one_section (load_icon : String → Option Nat)
    (args : List (Option HomeScreenSection)) (sect : Option HomeScreenSection) :
    ((HomeScreen.new true).addSections load_icon args).sections.length ≤ 1 ∧
    (((HomeScreen.new true).addSections load_icon args).sections ≠ [] →
      (((HomeScreen.new true).addSections load_icon args).addSection load_icon sect).state
        = (HomeScreen.new true).addSections load_icon args ∧
      (((HomeScreen.new true).addSections load_icon args).addSection load_icon
          sect).state.sections
        = ((HomeScreen.new true).addSections load_icon args).sections ∧
      (((HomeScreen.new true).addSections load_icon args).addSection load_icon sect).thrown
        = some (match sect with
                | some _ => singleSectionMessage
                | none => "Empty HomeScreenSection given")) := by
  obtain ⟨hs, -, hl⟩ := singleSectionInv_addSections load_icon args (HomeScreen.new true)
    singleSectionInv_new
  refine ⟨hl, ?_⟩
  intro hne
  cases sect with
  | none => exact ⟨rfl, rfl, rfl⟩
  | some sec =>
    simp [HomeScreen.addSection, hs, hne, singleSectionMessage]

end mforms
